import Mathlib

/-!
Shallow embedding of the guest-roster logic of the birthday-party site.

Two variants exist in the repository:
* the local-storage variant (`src/unnamed/part_000`), whose guest operations
  `addGuest`, `updateGuestStatus`, `removeGuest`, `getGuestStats` mutate the
  in-memory array `appState.guests`;
* the remote variant (`src/script.js`), whose operations send HTTP requests
  and refresh the in-memory array from the server response (`loadGuests`).

The embedding turns each operation into a pure function from the current
guest list (plus the external inputs the code reads: the text field value,
the `Date.now()` timestamp, the HTTP responses) to the resulting guest list
together with the observable outcome (the record created or removed and the
notification shown by `showNotification`).
-/

set_option maxRecDepth 100000

namespace Birthday

/-- Whitespace per the JS `String.prototype.trim` definition: the WhiteSpace
and LineTerminator productions of ECMA-262 (space, tab, form feed, vertical
tab, CR, LF, NBSP, BOM, Unicode space separators, line/paragraph separator). -/
def isJsWhitespace (c : Char) : Bool :=
  c = ' ' || c = '\t' || c = '\n' || c = '\u000D' || c = '\u000B' || c = '\u000C' ||
  c = '\u00A0' || c = '\uFEFF' || c = '\u1680' ||
  ('\u2000' ≤ c && c ≤ '\u200A') ||
  c = '\u2028' || c = '\u2029' || c = '\u202F' || c = '\u205F' || c = '\u3000'

/-- Embeds `String.prototype.trim`: drop leading and trailing whitespace. -/
def jsTrim (s : String) : String :=
  ⟨(((s.data.dropWhile isJsWhitespace).reverse.dropWhile isJsWhitespace).reverse)⟩

/-- Number of UTF-16 code units a character occupies; JS `string.length`
counts code units, so an astral-plane character counts as 2. -/
def charUtf16 (c : Char) : Nat :=
  if c.val < 0x10000 then 1 else 2

/-- Embeds the JS `string.length` property (UTF-16 code units). -/
def jsLength (s : String) : Nat :=
  (s.data.map charUtf16).sum

/-- One run of the Unicode simple lowercase mapping: the code points
`lo, lo + stride, ..., hi` map to `target, target + stride, ...`. -/
structure LowerRule where
  lo : Nat
  hi : Nat
  stride : Nat
  target : Nat

/-- The one-to-one part of the Unicode lowercase mapping (the mapping JS
`toLowerCase` applies), generated from the Unicode character database as
arithmetic runs of code points sharing a displacement, split into chunks
to keep elaboration cheap. -/
def lowerRulesPart0 : List LowerRule := [
  ⟨0x41, 0x5A, 1, 0x61⟩,
  ⟨0xC0, 0xD6, 1, 0xE0⟩,
  ⟨0xD8, 0xDE, 1, 0xF8⟩,
  ⟨0x100, 0x12E, 2, 0x101⟩,
  ⟨0x132, 0x136, 2, 0x133⟩,
  ⟨0x139, 0x147, 2, 0x13A⟩,
  ⟨0x14A, 0x176, 2, 0x14B⟩,
  ⟨0x178, 0x178, 1, 0xFF⟩,
  ⟨0x179, 0x17D, 2, 0x17A⟩,
  ⟨0x181, 0x181, 1, 0x253⟩,
  ⟨0x182, 0x184, 2, 0x183⟩,
  ⟨0x186, 0x186, 1, 0x254⟩,
  ⟨0x187, 0x187, 1, 0x188⟩,
  ⟨0x189, 0x18A, 1, 0x256⟩,
  ⟨0x18B, 0x18B, 1, 0x18C⟩,
  ⟨0x18E, 0x18E, 1, 0x1DD⟩,
  ⟨0x18F, 0x18F, 1, 0x259⟩,
  ⟨0x190, 0x190, 1, 0x25B⟩,
  ⟨0x191, 0x191, 1, 0x192⟩,
  ⟨0x193, 0x193, 1, 0x260⟩,
  ⟨0x194, 0x194, 1, 0x263⟩,
  ⟨0x196, 0x196, 1, 0x269⟩,
  ⟨0x197, 0x197, 1, 0x268⟩,
  ⟨0x198, 0x198, 1, 0x199⟩,
  ⟨0x19C, 0x19C, 1, 0x26F⟩,
  ⟨0x19D, 0x19D, 1, 0x272⟩,
  ⟨0x19F, 0x19F, 1, 0x275⟩,
  ⟨0x1A0, 0x1A4, 2, 0x1A1⟩,
  ⟨0x1A6, 0x1A6, 1, 0x280⟩,
  ⟨0x1A7, 0x1A7, 1, 0x1A8⟩,
  ⟨0x1A9, 0x1A9, 1, 0x283⟩,
  ⟨0x1AC, 0x1AC, 1, 0x1AD⟩,
  ⟨0x1AE, 0x1AE, 1, 0x288⟩,
  ⟨0x1AF, 0x1AF, 1, 0x1B0⟩,
  ⟨0x1B1, 0x1B2, 1, 0x28A⟩,
  ⟨0x1B3, 0x1B5, 2, 0x1B4⟩,
  ⟨0x1B7, 0x1B7, 1, 0x292⟩,
  ⟨0x1B8, 0x1B8, 1, 0x1B9⟩,
  ⟨0x1BC, 0x1BC, 1, 0x1BD⟩,
  ⟨0x1C4, 0x1C4, 1, 0x1C6⟩,
  ⟨0x1C5, 0x1C5, 1, 0x1C6⟩,
  ⟨0x1C7, 0x1C7, 1, 0x1C9⟩,
  ⟨0x1C8, 0x1C8, 1, 0x1C9⟩,
  ⟨0x1CA, 0x1CA, 1, 0x1CC⟩,
  ⟨0x1CB, 0x1DB, 2, 0x1CC⟩]

def lowerRulesPart1 : List LowerRule := [
  ⟨0x1DE, 0x1EE, 2, 0x1DF⟩,
  ⟨0x1F1, 0x1F1, 1, 0x1F3⟩,
  ⟨0x1F2, 0x1F4, 2, 0x1F3⟩,
  ⟨0x1F6, 0x1F6, 1, 0x195⟩,
  ⟨0x1F7, 0x1F7, 1, 0x1BF⟩,
  ⟨0x1F8, 0x21E, 2, 0x1F9⟩,
  ⟨0x220, 0x220, 1, 0x19E⟩,
  ⟨0x222, 0x232, 2, 0x223⟩,
  ⟨0x23A, 0x23A, 1, 0x2C65⟩,
  ⟨0x23B, 0x23B, 1, 0x23C⟩,
  ⟨0x23D, 0x23D, 1, 0x19A⟩,
  ⟨0x23E, 0x23E, 1, 0x2C66⟩,
  ⟨0x241, 0x241, 1, 0x242⟩,
  ⟨0x243, 0x243, 1, 0x180⟩,
  ⟨0x244, 0x244, 1, 0x289⟩,
  ⟨0x245, 0x245, 1, 0x28C⟩,
  ⟨0x246, 0x24E, 2, 0x247⟩,
  ⟨0x370, 0x372, 2, 0x371⟩,
  ⟨0x376, 0x376, 1, 0x377⟩,
  ⟨0x37F, 0x37F, 1, 0x3F3⟩,
  ⟨0x386, 0x386, 1, 0x3AC⟩,
  ⟨0x388, 0x38A, 1, 0x3AD⟩,
  ⟨0x38C, 0x38C, 1, 0x3CC⟩,
  ⟨0x38E, 0x38F, 1, 0x3CD⟩,
  ⟨0x391, 0x3A1, 1, 0x3B1⟩,
  ⟨0x3A3, 0x3AB, 1, 0x3C3⟩,
  ⟨0x3CF, 0x3CF, 1, 0x3D7⟩,
  ⟨0x3D8, 0x3EE, 2, 0x3D9⟩,
  ⟨0x3F4, 0x3F4, 1, 0x3B8⟩,
  ⟨0x3F7, 0x3F7, 1, 0x3F8⟩,
  ⟨0x3F9, 0x3F9, 1, 0x3F2⟩,
  ⟨0x3FA, 0x3FA, 1, 0x3FB⟩,
  ⟨0x3FD, 0x3FF, 1, 0x37B⟩,
  ⟨0x400, 0x40F, 1, 0x450⟩,
  ⟨0x410, 0x42F, 1, 0x430⟩,
  ⟨0x460, 0x480, 2, 0x461⟩,
  ⟨0x48A, 0x4BE, 2, 0x48B⟩,
  ⟨0x4C0, 0x4C0, 1, 0x4CF⟩,
  ⟨0x4C1, 0x4CD, 2, 0x4C2⟩,
  ⟨0x4D0, 0x52E, 2, 0x4D1⟩,
  ⟨0x531, 0x556, 1, 0x561⟩,
  ⟨0x10A0, 0x10C5, 1, 0x2D00⟩,
  ⟨0x10C7, 0x10C7, 1, 0x2D27⟩,
  ⟨0x10CD, 0x10CD, 1, 0x2D2D⟩,
  ⟨0x13A0, 0x13EF, 1, 0xAB70⟩]

def lowerRulesPart2 : List LowerRule := [
  ⟨0x13F0, 0x13F5, 1, 0x13F8⟩,
  ⟨0x1C90, 0x1CBA, 1, 0x10D0⟩,
  ⟨0x1CBD, 0x1CBF, 1, 0x10FD⟩,
  ⟨0x1E00, 0x1E94, 2, 0x1E01⟩,
  ⟨0x1E9E, 0x1E9E, 1, 0xDF⟩,
  ⟨0x1EA0, 0x1EFE, 2, 0x1EA1⟩,
  ⟨0x1F08, 0x1F0F, 1, 0x1F00⟩,
  ⟨0x1F18, 0x1F1D, 1, 0x1F10⟩,
  ⟨0x1F28, 0x1F2F, 1, 0x1F20⟩,
  ⟨0x1F38, 0x1F3F, 1, 0x1F30⟩,
  ⟨0x1F48, 0x1F4D, 1, 0x1F40⟩,
  ⟨0x1F59, 0x1F5F, 2, 0x1F51⟩,
  ⟨0x1F68, 0x1F6F, 1, 0x1F60⟩,
  ⟨0x1F88, 0x1F8F, 1, 0x1F80⟩,
  ⟨0x1F98, 0x1F9F, 1, 0x1F90⟩,
  ⟨0x1FA8, 0x1FAF, 1, 0x1FA0⟩,
  ⟨0x1FB8, 0x1FB9, 1, 0x1FB0⟩,
  ⟨0x1FBA, 0x1FBB, 1, 0x1F70⟩,
  ⟨0x1FBC, 0x1FBC, 1, 0x1FB3⟩,
  ⟨0x1FC8, 0x1FCB, 1, 0x1F72⟩,
  ⟨0x1FCC, 0x1FCC, 1, 0x1FC3⟩,
  ⟨0x1FD8, 0x1FD9, 1, 0x1FD0⟩,
  ⟨0x1FDA, 0x1FDB, 1, 0x1F76⟩,
  ⟨0x1FE8, 0x1FE9, 1, 0x1FE0⟩,
  ⟨0x1FEA, 0x1FEB, 1, 0x1F7A⟩,
  ⟨0x1FEC, 0x1FEC, 1, 0x1FE5⟩,
  ⟨0x1FF8, 0x1FF9, 1, 0x1F78⟩,
  ⟨0x1FFA, 0x1FFB, 1, 0x1F7C⟩,
  ⟨0x1FFC, 0x1FFC, 1, 0x1FF3⟩,
  ⟨0x2126, 0x2126, 1, 0x3C9⟩,
  ⟨0x212A, 0x212A, 1, 0x6B⟩,
  ⟨0x212B, 0x212B, 1, 0xE5⟩,
  ⟨0x2132, 0x2132, 1, 0x214E⟩,
  ⟨0x2160, 0x216F, 1, 0x2170⟩,
  ⟨0x2183, 0x2183, 1, 0x2184⟩,
  ⟨0x24B6, 0x24CF, 1, 0x24D0⟩,
  ⟨0x2C00, 0x2C2F, 1, 0x2C30⟩,
  ⟨0x2C60, 0x2C60, 1, 0x2C61⟩,
  ⟨0x2C62, 0x2C62, 1, 0x26B⟩,
  ⟨0x2C63, 0x2C63, 1, 0x1D7D⟩,
  ⟨0x2C64, 0x2C64, 1, 0x27D⟩,
  ⟨0x2C67, 0x2C6B, 2, 0x2C68⟩,
  ⟨0x2C6D, 0x2C6D, 1, 0x251⟩,
  ⟨0x2C6E, 0x2C6E, 1, 0x271⟩,
  ⟨0x2C6F, 0x2C6F, 1, 0x250⟩]

def lowerRulesPart3 : List LowerRule := [
  ⟨0x2C70, 0x2C70, 1, 0x252⟩,
  ⟨0x2C72, 0x2C72, 1, 0x2C73⟩,
  ⟨0x2C75, 0x2C75, 1, 0x2C76⟩,
  ⟨0x2C7E, 0x2C7F, 1, 0x23F⟩,
  ⟨0x2C80, 0x2CE2, 2, 0x2C81⟩,
  ⟨0x2CEB, 0x2CED, 2, 0x2CEC⟩,
  ⟨0x2CF2, 0x2CF2, 1, 0x2CF3⟩,
  ⟨0xA640, 0xA66C, 2, 0xA641⟩,
  ⟨0xA680, 0xA69A, 2, 0xA681⟩,
  ⟨0xA722, 0xA72E, 2, 0xA723⟩,
  ⟨0xA732, 0xA76E, 2, 0xA733⟩,
  ⟨0xA779, 0xA77B, 2, 0xA77A⟩,
  ⟨0xA77D, 0xA77D, 1, 0x1D79⟩,
  ⟨0xA77E, 0xA786, 2, 0xA77F⟩,
  ⟨0xA78B, 0xA78B, 1, 0xA78C⟩,
  ⟨0xA78D, 0xA78D, 1, 0x265⟩,
  ⟨0xA790, 0xA792, 2, 0xA791⟩,
  ⟨0xA796, 0xA7A8, 2, 0xA797⟩,
  ⟨0xA7AA, 0xA7AA, 1, 0x266⟩,
  ⟨0xA7AB, 0xA7AB, 1, 0x25C⟩,
  ⟨0xA7AC, 0xA7AC, 1, 0x261⟩,
  ⟨0xA7AD, 0xA7AD, 1, 0x26C⟩,
  ⟨0xA7AE, 0xA7AE, 1, 0x26A⟩,
  ⟨0xA7B0, 0xA7B0, 1, 0x29E⟩,
  ⟨0xA7B1, 0xA7B1, 1, 0x287⟩,
  ⟨0xA7B2, 0xA7B2, 1, 0x29D⟩,
  ⟨0xA7B3, 0xA7B3, 1, 0xAB53⟩,
  ⟨0xA7B4, 0xA7C2, 2, 0xA7B5⟩,
  ⟨0xA7C4, 0xA7C4, 1, 0xA794⟩,
  ⟨0xA7C5, 0xA7C5, 1, 0x282⟩,
  ⟨0xA7C6, 0xA7C6, 1, 0x1D8E⟩,
  ⟨0xA7C7, 0xA7C9, 2, 0xA7C8⟩,
  ⟨0xA7D0, 0xA7D0, 1, 0xA7D1⟩,
  ⟨0xA7D6, 0xA7D8, 2, 0xA7D7⟩,
  ⟨0xA7F5, 0xA7F5, 1, 0xA7F6⟩,
  ⟨0xFF21, 0xFF3A, 1, 0xFF41⟩,
  ⟨0x10400, 0x10427, 1, 0x10428⟩,
  ⟨0x104B0, 0x104D3, 1, 0x104D8⟩,
  ⟨0x10570, 0x1057A, 1, 0x10597⟩,
  ⟨0x1057C, 0x1058A, 1, 0x105A3⟩,
  ⟨0x1058C, 0x10592, 1, 0x105B3⟩,
  ⟨0x10594, 0x10595, 1, 0x105BB⟩,
  ⟨0x10C80, 0x10CB2, 1, 0x10CC0⟩,
  ⟨0x118A0, 0x118BF, 1, 0x118C0⟩,
  ⟨0x16E40, 0x16E5F, 1, 0x16E60⟩]

def lowerRulesPart4 : List LowerRule := [
  ⟨0x1E900, 0x1E921, 1, 0x1E922⟩]

def lowerRules : List LowerRule :=
  lowerRulesPart0 ++ lowerRulesPart1 ++ lowerRulesPart2 ++ lowerRulesPart3 ++ lowerRulesPart4

/-- Simple lowercase mapping on code points; identity off the table. -/
def simpleLowerVal (n : Nat) : Nat :=
  match lowerRules.find? (fun r =>
      decide (r.lo ≤ n) && decide (n ≤ r.hi) && decide ((n - r.lo) % r.stride = 0)) with
  | some r => r.target + (n - r.lo)
  | none => n

/-- Ranges of code points with the Unicode `Cased` property (lowercase,
uppercase or titlecase), used by the final-sigma context rule. -/
def casedRangesPart0 : List (Nat × Nat) := [
  (0x41, 0x5A),
  (0x61, 0x7A),
  (0xAA, 0xAA),
  (0xB5, 0xB5),
  (0xBA, 0xBA),
  (0xC0, 0xD6),
  (0xD8, 0xF6),
  (0xF8, 0x1BA),
  (0x1BC, 0x1BF),
  (0x1C4, 0x293),
  (0x295, 0x2B8),
  (0x2C0, 0x2C1),
  (0x2E0, 0x2E4),
  (0x345, 0x345),
  (0x370, 0x373),
  (0x376, 0x377),
  (0x37A, 0x37D),
  (0x37F, 0x37F),
  (0x386, 0x386),
  (0x388, 0x38A),
  (0x38C, 0x38C),
  (0x38E, 0x3A1),
  (0x3A3, 0x3F5),
  (0x3F7, 0x481),
  (0x48A, 0x52F),
  (0x531, 0x556),
  (0x560, 0x588),
  (0x10A0, 0x10C5),
  (0x10C7, 0x10C7),
  (0x10CD, 0x10CD),
  (0x10D0, 0x10FA),
  (0x10FD, 0x10FF),
  (0x13A0, 0x13F5),
  (0x13F8, 0x13FD),
  (0x1C80, 0x1C88),
  (0x1C90, 0x1CBA),
  (0x1CBD, 0x1CBF),
  (0x1D00, 0x1DBF),
  (0x1E00, 0x1F15),
  (0x1F18, 0x1F1D),
  (0x1F20, 0x1F45),
  (0x1F48, 0x1F4D),
  (0x1F50, 0x1F57),
  (0x1F59, 0x1F59),
  (0x1F5B, 0x1F5B)]

def casedRangesPart1 : List (Nat × Nat) := [
  (0x1F5D, 0x1F5D),
  (0x1F5F, 0x1F7D),
  (0x1F80, 0x1FB4),
  (0x1FB6, 0x1FBC),
  (0x1FBE, 0x1FBE),
  (0x1FC2, 0x1FC4),
  (0x1FC6, 0x1FCC),
  (0x1FD0, 0x1FD3),
  (0x1FD6, 0x1FDB),
  (0x1FE0, 0x1FEC),
  (0x1FF2, 0x1FF4),
  (0x1FF6, 0x1FFC),
  (0x2071, 0x2071),
  (0x207F, 0x207F),
  (0x2090, 0x209C),
  (0x2102, 0x2102),
  (0x2107, 0x2107),
  (0x210A, 0x2113),
  (0x2115, 0x2115),
  (0x2119, 0x211D),
  (0x2124, 0x2124),
  (0x2126, 0x2126),
  (0x2128, 0x2128),
  (0x212A, 0x212D),
  (0x212F, 0x2134),
  (0x2139, 0x2139),
  (0x213C, 0x213F),
  (0x2145, 0x2149),
  (0x214E, 0x214E),
  (0x2160, 0x217F),
  (0x2183, 0x2184),
  (0x24B6, 0x24E9),
  (0x2C00, 0x2CE4),
  (0x2CEB, 0x2CEE),
  (0x2CF2, 0x2CF3),
  (0x2D00, 0x2D25),
  (0x2D27, 0x2D27),
  (0x2D2D, 0x2D2D),
  (0xA640, 0xA66D),
  (0xA680, 0xA69D),
  (0xA722, 0xA787),
  (0xA78B, 0xA78E),
  (0xA790, 0xA7CA),
  (0xA7D0, 0xA7D1),
  (0xA7D3, 0xA7D3)]

def casedRangesPart2 : List (Nat × Nat) := [
  (0xA7D5, 0xA7D9),
  (0xA7F5, 0xA7F6),
  (0xA7F8, 0xA7FA),
  (0xAB30, 0xAB5A),
  (0xAB5C, 0xAB68),
  (0xAB70, 0xABBF),
  (0xFB00, 0xFB06),
  (0xFB13, 0xFB17),
  (0xFF21, 0xFF3A),
  (0xFF41, 0xFF5A),
  (0x10400, 0x1044F),
  (0x104B0, 0x104D3),
  (0x104D8, 0x104FB),
  (0x10570, 0x1057A),
  (0x1057C, 0x1058A),
  (0x1058C, 0x10592),
  (0x10594, 0x10595),
  (0x10597, 0x105A1),
  (0x105A3, 0x105B1),
  (0x105B3, 0x105B9),
  (0x105BB, 0x105BC),
  (0x10780, 0x10780),
  (0x10783, 0x10785),
  (0x10787, 0x107B0),
  (0x107B2, 0x107BA),
  (0x10C80, 0x10CB2),
  (0x10CC0, 0x10CF2),
  (0x118A0, 0x118DF),
  (0x16E40, 0x16E7F),
  (0x1D400, 0x1D454),
  (0x1D456, 0x1D49C),
  (0x1D49E, 0x1D49F),
  (0x1D4A2, 0x1D4A2),
  (0x1D4A5, 0x1D4A6),
  (0x1D4A9, 0x1D4AC),
  (0x1D4AE, 0x1D4B9),
  (0x1D4BB, 0x1D4BB),
  (0x1D4BD, 0x1D4C3),
  (0x1D4C5, 0x1D505),
  (0x1D507, 0x1D50A),
  (0x1D50D, 0x1D514),
  (0x1D516, 0x1D51C),
  (0x1D51E, 0x1D539),
  (0x1D53B, 0x1D53E),
  (0x1D540, 0x1D544)]

def casedRangesPart3 : List (Nat × Nat) := [
  (0x1D546, 0x1D546),
  (0x1D54A, 0x1D550),
  (0x1D552, 0x1D6A5),
  (0x1D6A8, 0x1D6C0),
  (0x1D6C2, 0x1D6DA),
  (0x1D6DC, 0x1D6FA),
  (0x1D6FC, 0x1D714),
  (0x1D716, 0x1D734),
  (0x1D736, 0x1D74E),
  (0x1D750, 0x1D76E),
  (0x1D770, 0x1D788),
  (0x1D78A, 0x1D7A8),
  (0x1D7AA, 0x1D7C2),
  (0x1D7C4, 0x1D7CB),
  (0x1DF00, 0x1DF09),
  (0x1DF0B, 0x1DF1E),
  (0x1E900, 0x1E943),
  (0x1F130, 0x1F149),
  (0x1F150, 0x1F169),
  (0x1F170, 0x1F189)]

def casedRanges : List (Nat × Nat) :=
  casedRangesPart0 ++ casedRangesPart1 ++ casedRangesPart2 ++ casedRangesPart3

def isCased (c : Char) : Bool :=
  casedRanges.any fun r => decide (r.1 ≤ c.toNat) && decide (c.toNat ≤ r.2)

/-- Ranges of code points with the Unicode `Case_Ignorable` property
(marks, format controls, modifier letters and symbols, and the word-break
mid-letter punctuation), used by the final-sigma context rule. -/
def caseIgnorableRangesPart0 : List (Nat × Nat) := [
  (0x27, 0x27),
  (0x2E, 0x2E),
  (0x3A, 0x3A),
  (0x5E, 0x5E),
  (0x60, 0x60),
  (0xA8, 0xA8),
  (0xAD, 0xAD),
  (0xAF, 0xAF),
  (0xB4, 0xB4),
  (0xB7, 0xB8),
  (0x2B0, 0x36F),
  (0x374, 0x375),
  (0x37A, 0x37A),
  (0x384, 0x385),
  (0x387, 0x387),
  (0x483, 0x489),
  (0x559, 0x559),
  (0x55F, 0x55F),
  (0x591, 0x5BD),
  (0x5BF, 0x5BF),
  (0x5C1, 0x5C2),
  (0x5C4, 0x5C5),
  (0x5C7, 0x5C7),
  (0x5F4, 0x5F4),
  (0x600, 0x605),
  (0x610, 0x61A),
  (0x61C, 0x61C),
  (0x640, 0x640),
  (0x64B, 0x65F),
  (0x670, 0x670),
  (0x6D6, 0x6DD),
  (0x6DF, 0x6E8),
  (0x6EA, 0x6ED),
  (0x70F, 0x70F),
  (0x711, 0x711),
  (0x730, 0x74A),
  (0x7A6, 0x7B0),
  (0x7EB, 0x7F5),
  (0x7FA, 0x7FA),
  (0x7FD, 0x7FD),
  (0x816, 0x82D),
  (0x859, 0x85B),
  (0x888, 0x888),
  (0x890, 0x891),
  (0x898, 0x89F)]

def caseIgnorableRangesPart1 : List (Nat × Nat) := [
  (0x8C9, 0x902),
  (0x93A, 0x93A),
  (0x93C, 0x93C),
  (0x941, 0x948),
  (0x94D, 0x94D),
  (0x951, 0x957),
  (0x962, 0x963),
  (0x971, 0x971),
  (0x981, 0x981),
  (0x9BC, 0x9BC),
  (0x9C1, 0x9C4),
  (0x9CD, 0x9CD),
  (0x9E2, 0x9E3),
  (0x9FE, 0x9FE),
  (0xA01, 0xA02),
  (0xA3C, 0xA3C),
  (0xA41, 0xA42),
  (0xA47, 0xA48),
  (0xA4B, 0xA4D),
  (0xA51, 0xA51),
  (0xA70, 0xA71),
  (0xA75, 0xA75),
  (0xA81, 0xA82),
  (0xABC, 0xABC),
  (0xAC1, 0xAC5),
  (0xAC7, 0xAC8),
  (0xACD, 0xACD),
  (0xAE2, 0xAE3),
  (0xAFA, 0xAFF),
  (0xB01, 0xB01),
  (0xB3C, 0xB3C),
  (0xB3F, 0xB3F),
  (0xB41, 0xB44),
  (0xB4D, 0xB4D),
  (0xB55, 0xB56),
  (0xB62, 0xB63),
  (0xB82, 0xB82),
  (0xBC0, 0xBC0),
  (0xBCD, 0xBCD),
  (0xC00, 0xC00),
  (0xC04, 0xC04),
  (0xC3C, 0xC3C),
  (0xC3E, 0xC40),
  (0xC46, 0xC48),
  (0xC4A, 0xC4D)]

def caseIgnorableRangesPart2 : List (Nat × Nat) := [
  (0xC55, 0xC56),
  (0xC62, 0xC63),
  (0xC81, 0xC81),
  (0xCBC, 0xCBC),
  (0xCBF, 0xCBF),
  (0xCC6, 0xCC6),
  (0xCCC, 0xCCD),
  (0xCE2, 0xCE3),
  (0xD00, 0xD01),
  (0xD3B, 0xD3C),
  (0xD41, 0xD44),
  (0xD4D, 0xD4D),
  (0xD62, 0xD63),
  (0xD81, 0xD81),
  (0xDCA, 0xDCA),
  (0xDD2, 0xDD4),
  (0xDD6, 0xDD6),
  (0xE31, 0xE31),
  (0xE34, 0xE3A),
  (0xE46, 0xE4E),
  (0xEB1, 0xEB1),
  (0xEB4, 0xEBC),
  (0xEC6, 0xEC6),
  (0xEC8, 0xECD),
  (0xF18, 0xF19),
  (0xF35, 0xF35),
  (0xF37, 0xF37),
  (0xF39, 0xF39),
  (0xF71, 0xF7E),
  (0xF80, 0xF84),
  (0xF86, 0xF87),
  (0xF8D, 0xF97),
  (0xF99, 0xFBC),
  (0xFC6, 0xFC6),
  (0x102D, 0x1030),
  (0x1032, 0x1037),
  (0x1039, 0x103A),
  (0x103D, 0x103E),
  (0x1058, 0x1059),
  (0x105E, 0x1060),
  (0x1071, 0x1074),
  (0x1082, 0x1082),
  (0x1085, 0x1086),
  (0x108D, 0x108D),
  (0x109D, 0x109D)]

def caseIgnorableRangesPart3 : List (Nat × Nat) := [
  (0x10FC, 0x10FC),
  (0x135D, 0x135F),
  (0x1712, 0x1714),
  (0x1732, 0x1733),
  (0x1752, 0x1753),
  (0x1772, 0x1773),
  (0x17B4, 0x17B5),
  (0x17B7, 0x17BD),
  (0x17C6, 0x17C6),
  (0x17C9, 0x17D3),
  (0x17D7, 0x17D7),
  (0x17DD, 0x17DD),
  (0x180B, 0x180F),
  (0x1843, 0x1843),
  (0x1885, 0x1886),
  (0x18A9, 0x18A9),
  (0x1920, 0x1922),
  (0x1927, 0x1928),
  (0x1932, 0x1932),
  (0x1939, 0x193B),
  (0x1A17, 0x1A18),
  (0x1A1B, 0x1A1B),
  (0x1A56, 0x1A56),
  (0x1A58, 0x1A5E),
  (0x1A60, 0x1A60),
  (0x1A62, 0x1A62),
  (0x1A65, 0x1A6C),
  (0x1A73, 0x1A7C),
  (0x1A7F, 0x1A7F),
  (0x1AA7, 0x1AA7),
  (0x1AB0, 0x1ACE),
  (0x1B00, 0x1B03),
  (0x1B34, 0x1B34),
  (0x1B36, 0x1B3A),
  (0x1B3C, 0x1B3C),
  (0x1B42, 0x1B42),
  (0x1B6B, 0x1B73),
  (0x1B80, 0x1B81),
  (0x1BA2, 0x1BA5),
  (0x1BA8, 0x1BA9),
  (0x1BAB, 0x1BAD),
  (0x1BE6, 0x1BE6),
  (0x1BE8, 0x1BE9),
  (0x1BED, 0x1BED),
  (0x1BEF, 0x1BF1)]

def caseIgnorableRangesPart4 : List (Nat × Nat) := [
  (0x1C2C, 0x1C33),
  (0x1C36, 0x1C37),
  (0x1C78, 0x1C7D),
  (0x1CD0, 0x1CD2),
  (0x1CD4, 0x1CE0),
  (0x1CE2, 0x1CE8),
  (0x1CED, 0x1CED),
  (0x1CF4, 0x1CF4),
  (0x1CF8, 0x1CF9),
  (0x1D2C, 0x1D6A),
  (0x1D78, 0x1D78),
  (0x1D9B, 0x1DFF),
  (0x1FBD, 0x1FBD),
  (0x1FBF, 0x1FC1),
  (0x1FCD, 0x1FCF),
  (0x1FDD, 0x1FDF),
  (0x1FED, 0x1FEF),
  (0x1FFD, 0x1FFE),
  (0x200B, 0x200F),
  (0x2018, 0x2019),
  (0x2024, 0x2024),
  (0x2027, 0x2027),
  (0x202A, 0x202E),
  (0x2060, 0x2064),
  (0x2066, 0x206F),
  (0x2071, 0x2071),
  (0x207F, 0x207F),
  (0x2090, 0x209C),
  (0x20D0, 0x20F0),
  (0x2C7C, 0x2C7D),
  (0x2CEF, 0x2CF1),
  (0x2D6F, 0x2D6F),
  (0x2D7F, 0x2D7F),
  (0x2DE0, 0x2DFF),
  (0x2E2F, 0x2E2F),
  (0x3005, 0x3005),
  (0x302A, 0x302D),
  (0x3031, 0x3035),
  (0x303B, 0x303B),
  (0x3099, 0x309E),
  (0x30FC, 0x30FE),
  (0xA015, 0xA015),
  (0xA4F8, 0xA4FD),
  (0xA60C, 0xA60C),
  (0xA66F, 0xA672)]

def caseIgnorableRangesPart5 : List (Nat × Nat) := [
  (0xA674, 0xA67D),
  (0xA67F, 0xA67F),
  (0xA69C, 0xA69F),
  (0xA6F0, 0xA6F1),
  (0xA700, 0xA721),
  (0xA770, 0xA770),
  (0xA788, 0xA78A),
  (0xA7F2, 0xA7F4),
  (0xA7F8, 0xA7F9),
  (0xA802, 0xA802),
  (0xA806, 0xA806),
  (0xA80B, 0xA80B),
  (0xA825, 0xA826),
  (0xA82C, 0xA82C),
  (0xA8C4, 0xA8C5),
  (0xA8E0, 0xA8F1),
  (0xA8FF, 0xA8FF),
  (0xA926, 0xA92D),
  (0xA947, 0xA951),
  (0xA980, 0xA982),
  (0xA9B3, 0xA9B3),
  (0xA9B6, 0xA9B9),
  (0xA9BC, 0xA9BD),
  (0xA9CF, 0xA9CF),
  (0xA9E5, 0xA9E6),
  (0xAA29, 0xAA2E),
  (0xAA31, 0xAA32),
  (0xAA35, 0xAA36),
  (0xAA43, 0xAA43),
  (0xAA4C, 0xAA4C),
  (0xAA70, 0xAA70),
  (0xAA7C, 0xAA7C),
  (0xAAB0, 0xAAB0),
  (0xAAB2, 0xAAB4),
  (0xAAB7, 0xAAB8),
  (0xAABE, 0xAABF),
  (0xAAC1, 0xAAC1),
  (0xAADD, 0xAADD),
  (0xAAEC, 0xAAED),
  (0xAAF3, 0xAAF4),
  (0xAAF6, 0xAAF6),
  (0xAB5B, 0xAB5F),
  (0xAB69, 0xAB6B),
  (0xABE5, 0xABE5),
  (0xABE8, 0xABE8)]

def caseIgnorableRangesPart6 : List (Nat × Nat) := [
  (0xABED, 0xABED),
  (0xFB1E, 0xFB1E),
  (0xFBB2, 0xFBC2),
  (0xFE00, 0xFE0F),
  (0xFE13, 0xFE13),
  (0xFE20, 0xFE2F),
  (0xFE52, 0xFE52),
  (0xFE55, 0xFE55),
  (0xFEFF, 0xFEFF),
  (0xFF07, 0xFF07),
  (0xFF0E, 0xFF0E),
  (0xFF1A, 0xFF1A),
  (0xFF3E, 0xFF3E),
  (0xFF40, 0xFF40),
  (0xFF70, 0xFF70),
  (0xFF9E, 0xFF9F),
  (0xFFE3, 0xFFE3),
  (0xFFF9, 0xFFFB),
  (0x101FD, 0x101FD),
  (0x102E0, 0x102E0),
  (0x10376, 0x1037A),
  (0x10780, 0x10785),
  (0x10787, 0x107B0),
  (0x107B2, 0x107BA),
  (0x10A01, 0x10A03),
  (0x10A05, 0x10A06),
  (0x10A0C, 0x10A0F),
  (0x10A38, 0x10A3A),
  (0x10A3F, 0x10A3F),
  (0x10AE5, 0x10AE6),
  (0x10D24, 0x10D27),
  (0x10EAB, 0x10EAC),
  (0x10F46, 0x10F50),
  (0x10F82, 0x10F85),
  (0x11001, 0x11001),
  (0x11038, 0x11046),
  (0x11070, 0x11070),
  (0x11073, 0x11074),
  (0x1107F, 0x11081),
  (0x110B3, 0x110B6),
  (0x110B9, 0x110BA),
  (0x110BD, 0x110BD),
  (0x110C2, 0x110C2),
  (0x110CD, 0x110CD),
  (0x11100, 0x11102)]

def caseIgnorableRangesPart7 : List (Nat × Nat) := [
  (0x11127, 0x1112B),
  (0x1112D, 0x11134),
  (0x11173, 0x11173),
  (0x11180, 0x11181),
  (0x111B6, 0x111BE),
  (0x111C9, 0x111CC),
  (0x111CF, 0x111CF),
  (0x1122F, 0x11231),
  (0x11234, 0x11234),
  (0x11236, 0x11237),
  (0x1123E, 0x1123E),
  (0x112DF, 0x112DF),
  (0x112E3, 0x112EA),
  (0x11300, 0x11301),
  (0x1133B, 0x1133C),
  (0x11340, 0x11340),
  (0x11366, 0x1136C),
  (0x11370, 0x11374),
  (0x11438, 0x1143F),
  (0x11442, 0x11444),
  (0x11446, 0x11446),
  (0x1145E, 0x1145E),
  (0x114B3, 0x114B8),
  (0x114BA, 0x114BA),
  (0x114BF, 0x114C0),
  (0x114C2, 0x114C3),
  (0x115B2, 0x115B5),
  (0x115BC, 0x115BD),
  (0x115BF, 0x115C0),
  (0x115DC, 0x115DD),
  (0x11633, 0x1163A),
  (0x1163D, 0x1163D),
  (0x1163F, 0x11640),
  (0x116AB, 0x116AB),
  (0x116AD, 0x116AD),
  (0x116B0, 0x116B5),
  (0x116B7, 0x116B7),
  (0x1171D, 0x1171F),
  (0x11722, 0x11725),
  (0x11727, 0x1172B),
  (0x1182F, 0x11837),
  (0x11839, 0x1183A),
  (0x1193B, 0x1193C),
  (0x1193E, 0x1193E),
  (0x11943, 0x11943)]

def caseIgnorableRangesPart8 : List (Nat × Nat) := [
  (0x119D4, 0x119D7),
  (0x119DA, 0x119DB),
  (0x119E0, 0x119E0),
  (0x11A01, 0x11A0A),
  (0x11A33, 0x11A38),
  (0x11A3B, 0x11A3E),
  (0x11A47, 0x11A47),
  (0x11A51, 0x11A56),
  (0x11A59, 0x11A5B),
  (0x11A8A, 0x11A96),
  (0x11A98, 0x11A99),
  (0x11C30, 0x11C36),
  (0x11C38, 0x11C3D),
  (0x11C3F, 0x11C3F),
  (0x11C92, 0x11CA7),
  (0x11CAA, 0x11CB0),
  (0x11CB2, 0x11CB3),
  (0x11CB5, 0x11CB6),
  (0x11D31, 0x11D36),
  (0x11D3A, 0x11D3A),
  (0x11D3C, 0x11D3D),
  (0x11D3F, 0x11D45),
  (0x11D47, 0x11D47),
  (0x11D90, 0x11D91),
  (0x11D95, 0x11D95),
  (0x11D97, 0x11D97),
  (0x11EF3, 0x11EF4),
  (0x13430, 0x13438),
  (0x16AF0, 0x16AF4),
  (0x16B30, 0x16B36),
  (0x16B40, 0x16B43),
  (0x16F4F, 0x16F4F),
  (0x16F8F, 0x16F9F),
  (0x16FE0, 0x16FE1),
  (0x16FE3, 0x16FE4),
  (0x1AFF0, 0x1AFF3),
  (0x1AFF5, 0x1AFFB),
  (0x1AFFD, 0x1AFFE),
  (0x1BC9D, 0x1BC9E),
  (0x1BCA0, 0x1BCA3),
  (0x1CF00, 0x1CF2D),
  (0x1CF30, 0x1CF46),
  (0x1D167, 0x1D169),
  (0x1D173, 0x1D182),
  (0x1D185, 0x1D18B)]

def caseIgnorableRangesPart9 : List (Nat × Nat) := [
  (0x1D1AA, 0x1D1AD),
  (0x1D242, 0x1D244),
  (0x1DA00, 0x1DA36),
  (0x1DA3B, 0x1DA6C),
  (0x1DA75, 0x1DA75),
  (0x1DA84, 0x1DA84),
  (0x1DA9B, 0x1DA9F),
  (0x1DAA1, 0x1DAAF),
  (0x1E000, 0x1E006),
  (0x1E008, 0x1E018),
  (0x1E01B, 0x1E021),
  (0x1E023, 0x1E024),
  (0x1E026, 0x1E02A),
  (0x1E130, 0x1E13D),
  (0x1E2AE, 0x1E2AE),
  (0x1E2EC, 0x1E2EF),
  (0x1E8D0, 0x1E8D6),
  (0x1E944, 0x1E94B),
  (0x1F3FB, 0x1F3FF),
  (0xE0001, 0xE0001),
  (0xE0020, 0xE007F),
  (0xE0100, 0xE01EF)]

def caseIgnorableRanges : List (Nat × Nat) :=
  caseIgnorableRangesPart0 ++ caseIgnorableRangesPart1 ++ caseIgnorableRangesPart2 ++ caseIgnorableRangesPart3 ++ caseIgnorableRangesPart4 ++ caseIgnorableRangesPart5 ++ caseIgnorableRangesPart6 ++ caseIgnorableRangesPart7 ++ caseIgnorableRangesPart8 ++ caseIgnorableRangesPart9

def isCaseIgnorable (c : Char) : Bool :=
  caseIgnorableRanges.any fun r => decide (r.1 ≤ c.toNat) && decide (c.toNat ≤ r.2)

/-- Context-free per-character lowercase: the simple mapping, except that
`İ` (U+0130) expands to `i` followed by a combining dot above. -/
def jsLowerChar (c : Char) : List Char :=
  if c.toNat = 0x130 then ['i', '\u0307']
  else [Char.ofNat (simpleLowerVal c.toNat)]

/-- Whether the nearest following non-case-ignorable character is cased:
the look-ahead half of the Final_Sigma condition. -/
def followedByCased : List Char → Bool
  | [] => false
  | d :: rest => if isCaseIgnorable d then followedByCased rest else isCased d

/-- Lowercase a character list, tracking whether the nearest preceding
non-case-ignorable character is cased so that `Σ` maps to `ς` exactly in
Final_Sigma position (preceded by a cased character and not followed by
one, skipping case-ignorable characters), as Unicode Default Case
Conversion prescribes and JS `toLowerCase` implements. -/
def jsToLowerGo (prevCased : Bool) : List Char → List Char
  | [] => []
  | c :: rest =>
    let mapped : List Char :=
      if c.toNat = 0x3A3 then
        if prevCased && !followedByCased rest then ['\u03C2'] else ['\u03C3']
      else jsLowerChar c
    mapped ++ jsToLowerGo (if isCaseIgnorable c then prevCased else isCased c) rest

/-- Embeds `String.prototype.toLowerCase` (the repository compares guest
names with it): Unicode Default Case Conversion, i.e. the simple lowercase
mapping plus the `İ` expansion and the context-sensitive final sigma. -/
def jsToLower (s : String) : String :=
  ⟨jsToLowerGo false s.data⟩

/-- Per-character replacement used by `escapeHtml`
(`text.replace(/[&<>"']/g, m => map[m])` in both variants). -/
def escChar (c : Char) : List Char :=
  if c = '&' then "&amp;".data
  else if c = '<' then "&lt;".data
  else if c = '>' then "&gt;".data
  else if c = '\"' then "&quot;".data
  else if c = '\'' then "&#039;".data
  else [c]

/-- Embeds `escapeHtml` from the source: replace each of the five special
characters by its HTML entity, leave every other character unchanged. -/
def escapeHtml (text : String) : String :=
  ⟨(text.data.map escChar).flatten⟩

/-- Guest record `{ id, name, status }`; ids come from `Date.now()` (or the
literal `1` in the seeded sample guest), so they are natural numbers, and
statuses are the strings the code stores. -/
structure Guest where
  id : Nat
  name : String
  status : String
deriving Repr, DecidableEq

/-- Notification shown by `showNotification(message, type)`; the repository
uses the types success, error and warning (`info` is never used by the
guest operations). -/
inductive Notice where
  | success (msg : String)
  | error (msg : String)
  | warning (msg : String)
deriving Repr, DecidableEq

/-- Observable result of the local-variant `addGuest`: the new guest list
(`appState.guests` after the call), the record pushed (if any), and the
notification shown. -/
structure AddResult where
  guests : List Guest
  added : Option Guest
  notice : Notice
deriving Repr, DecidableEq

/-- Embeds `addGuest` of the local-storage variant. The function reads the
text field (`rawInput`) and the clock (`now = Date.now()`); it trims,
validates emptiness and the 50-character bound, rejects case-insensitive
duplicate names, and otherwise pushes `{id: now, name: escapeHtml(name),
status: 'pending'}` onto the guest array. -/
def addGuest (guests : List Guest) (rawInput : String) (now : Nat) : AddResult :=
  let name := jsTrim rawInput
  if name = "" then
    { guests := guests, added := none, notice := .error "Please enter a name" }
  else if jsLength name > 50 then
    { guests := guests, added := none,
      notice := .error "Name is too long (max 50 characters)" }
  else if guests.any (fun g => jsToLower g.name == jsToLower name) then
    { guests := guests, added := none,
      notice := .warning "This guest has already been added" }
  else
    let newGuest : Guest := { id := now, name := escapeHtml name, status := "pending" }
    { guests := guests ++ [newGuest], added := some newGuest,
      notice := .success ("✓ " ++ name ++ " added successfully") }

/-- Overwrite the status of the first guest whose id matches, leaving the
rest untouched: the effect of `guest.status = newStatus` after
`guests.find(g => g.id === id)`. -/
def setStatusFirst : List Guest → Nat → String → List Guest
  | [], _, _ => []
  | g :: gs, id, s =>
      if g.id = id then { g with status := s } :: gs
      else g :: setStatusFirst gs id s

/-- Embeds `updateGuestStatus` of the local-storage variant: find the guest
by id; if found, overwrite its status in place; either way show no
notification (the function only logs to the console). -/
def updateGuestStatus (guests : List Guest) (id : Nat) (newStatus : String) :
    List Guest × Option Notice :=
  match guests.find? (fun g => g.id == id) with
  | some _ => (setStatusFirst guests id newStatus, none)
  | none => (guests, none)

/-- Observable result of the local-variant `removeGuest`: the new guest
list, the record the function found and removed (if any), and the
notification shown. -/
structure RemoveResult where
  guests : List Guest
  removed : Option Guest
  notice : Option Notice
deriving Repr, DecidableEq

/-- Embeds `removeGuest` of the local-storage variant: find the guest by id;
if found, filter out every guest with that id and announce the removal;
otherwise do nothing (no notification, no error). -/
def removeGuest (guests : List Guest) (id : Nat) : RemoveResult :=
  match guests.find? (fun g => g.id == id) with
  | some g =>
      { guests := guests.filter (fun x => !(x.id == id)),
        removed := some g,
        notice := some (.success ("✓ " ++ g.name ++ " removed")) }
  | none => { guests := guests, removed := none, notice := none }

/-- Statistics record returned by `getGuestStats`. -/
structure Stats where
  total : Nat
  confirmed : Nat
  pending : Nat
  declined : Nat
deriving Repr, DecidableEq

/-- Embeds `getGuestStats`: total length and per-status filter counts. -/
def getGuestStats (guests : List Guest) : Stats :=
  { total := guests.length
  , confirmed := (guests.filter (fun g => g.status == "confirmed")).length
  , pending := (guests.filter (fun g => g.status == "pending")).length
  , declined := (guests.filter (fun g => g.status == "declined")).length }

/-- Embeds `updateConfirmedCount`'s computation: the number of guests whose
status is `confirmed`. -/
def confirmedCount (guests : List Guest) : Nat :=
  (guests.filter (fun g => g.status == "confirmed")).length

/-- The guest seeded in `appState` of the local-storage variant. -/
def sampleGuest : Guest :=
  { id := 1, name := "Sample Guest", status := "pending" }

/-- Initial guest list of the local-storage variant. -/
def initialGuests : List Guest :=
  [sampleGuest]

/-- The status strings offered by the UI's status dropdown, i.e. the RSVP
enumeration pending / confirmed / declined. -/
def isValidStatus (s : String) : Bool :=
  s == "pending" || s == "confirmed" || s == "declined"

/-- A roster operation of the local-storage variant, with the external
inputs each one reads: the text-field value and the `Date.now()` timestamp
for add, the id and new status for update, the id for remove. -/
inductive Op where
  | add (rawInput : String) (now : Nat)
  | update (id : Nat) (newStatus : String)
  | remove (id : Nat)
deriving Repr, DecidableEq

/-- Effect of one operation on the in-memory guest list. -/
def applyOp (guests : List Guest) : Op → List Guest
  | .add rawInput now => (addGuest guests rawInput now).guests
  | .update id newStatus => (updateGuestStatus guests id newStatus).1
  | .remove id => (removeGuest guests id).guests

/-- Guest list after running a sequence of operations from `init`. -/
def runOps (init : List Guest) (ops : List Op) : List Guest :=
  ops.foldl applyOp init

/-- An operation only ever writes statuses from the RSVP enumeration: true
of every operation the UI can issue (the status dropdown offers exactly the
three values, and add always writes `pending`). -/
def opWritesValidStatus : Op → Bool
  | .update _ newStatus => isValidStatus newStatus
  | _ => true

/-! ### Remote variant (`src/script.js`)

The remote operations send an HTTP request and then refresh the in-memory
list via `loadGuests`. The embedding passes the responses in as data: an
`HttpResult` for the mutating request and an `Option LoadResponse` for the
reload (`none` models the fetch or `response.json()` throwing, which lands
in the `catch` block). -/

/-- Body of the `GET /api/guests` response as `loadGuests` reads it. -/
structure LoadResponse where
  success : Bool
  guests : List Guest
deriving Repr, DecidableEq

/-- Outcome of a mutating HTTP request as the remote code observes it. -/
inductive HttpResult where
  | thrown
  | notOk (msg : String)
  | ok
deriving Repr, DecidableEq

/-- Embeds `loadGuests`: replace the in-memory list with the server's list
when the fetch succeeds and the body reports `success: true`; on a thrown
fetch (`none`) or an unsuccessful body, leave the list untouched. -/
def loadGuestsRemote (st : List Guest) (resp : Option LoadResponse) : List Guest :=
  match resp with
  | some r => if r.success then r.guests else st
  | none => st

/-- Embeds the remote `addGuest`: validate locally, POST the name, and on a
2xx response reload the list from the server; any failure leaves the
in-memory list unchanged. -/
def addGuestRemote (st : List Guest) (rawInput : String) (post : HttpResult)
    (reload : Option LoadResponse) : List Guest :=
  let name := jsTrim rawInput
  if name = "" then st
  else if jsLength name > 50 then st
  else
    match post with
    | .thrown => st
    | .notOk _ => st
    | .ok => loadGuestsRemote st reload

/-- Embeds the remote `updateGuestStatus`: PUT the new status and on a 2xx
response reload the list from the server. -/
def updateGuestStatusRemote (st : List Guest) (put : HttpResult)
    (reload : Option LoadResponse) : List Guest :=
  match put with
  | .thrown => st
  | .notOk _ => st
  | .ok => loadGuestsRemote st reload

/-- Embeds the remote `removeGuest` (after the `confirm` dialog is
accepted): DELETE the guest and on a 2xx response reload from the server. -/
def removeGuestRemote (st : List Guest) (del : HttpResult)
    (reload : Option LoadResponse) : List Guest :=
  match del with
  | .thrown => st
  | .notOk _ => st
  | .ok => loadGuestsRemote st reload

/-- The reload fails to report success: the fetch threw (`none`) or the
body's `success` flag is false. -/
def reloadFails : Option LoadResponse → Bool
  | none => true
  | some r => !r.success

/-- A stored guest name as the amended C8 bounds it: non-empty after
trimming and at most 300 UTF-16 units. -/
def goodName (n : String) : Prop :=
  jsTrim n ≠ "" ∧ jsLength n ≤ 300

instance (n : String) : Decidable (goodName n) := by
  unfold goodName
  infer_instance

/-! ### Basic lemmas about the string helpers -/

theorem jsLength_empty : jsLength "" = 0 := rfl

theorem jsLength_append (s t : String) :
    jsLength (s ++ t) = jsLength s + jsLength t := by
  simp [jsLength, String.data_append]

/-! ### Claim C1: adding a valid name appends one pending record -/

/-- Claim C1: for every roster and every input whose trimmed name is
non-empty, at most 50 characters, and not a case-insensitive duplicate of a
name already in the roster, `addGuest` appends exactly one new record to the
end of the list with status `pending`, returns that record, the list length
grows by 1 and `getGuestStats` reports one more pending guest. -/
theorem addGuest_valid_appends_pending (guests : List Guest) (rawInput : String)
    (now : Nat)
    (hne : jsTrim rawInput ≠ "")
    (hlen : jsLength (jsTrim rawInput) ≤ 50)
    (hdup : ∀ g ∈ guests, jsToLower g.name ≠ jsToLower (jsTrim rawInput)) :
    addGuest guests rawInput now =
      { guests := guests ++ [⟨now, escapeHtml (jsTrim rawInput), "pending"⟩],
        added := some ⟨now, escapeHtml (jsTrim rawInput), "pending"⟩,
        notice := .success ("✓ " ++ jsTrim rawInput ++ " added successfully") } ∧
    (addGuest guests rawInput now).guests.length = guests.length + 1 ∧
    (getGuestStats (addGuest guests rawInput now).guests).pending
      = (getGuestStats guests).pending + 1 := by
  have hgt : ¬ jsLength (jsTrim rawInput) > 50 := by omega
  have hany : (guests.any fun g => jsToLower g.name == jsToLower (jsTrim rawInput))
      = false := by
    simp only [List.any_eq_false, beq_iff_eq]
    exact hdup
  have hmain : addGuest guests rawInput now =
      { guests := guests ++ [⟨now, escapeHtml (jsTrim rawInput), "pending"⟩],
        added := some ⟨now, escapeHtml (jsTrim rawInput), "pending"⟩,
        notice := .success ("✓ " ++ jsTrim rawInput ++ " added successfully") } := by
    simp only [addGuest, if_neg hne, if_neg hgt, hany, Bool.false_eq_true, if_false]
  refine ⟨hmain, ?_, ?_⟩
  · rw [hmain]
    simp
  · rw [hmain]
    simp [getGuestStats, List.filter_append]

/-- Witness for C1 on a concrete roster. -/
theorem addGuest_valid_appends_pending_witness :
    addGuest [sampleGuest] "Bob" 7 =
      { guests := [sampleGuest] ++ [⟨7, escapeHtml (jsTrim "Bob"), "pending"⟩],
        added := some ⟨7, escapeHtml (jsTrim "Bob"), "pending"⟩,
        notice := .success ("✓ " ++ jsTrim "Bob" ++ " added successfully") } ∧
    (addGuest [sampleGuest] "Bob" 7).guests.length = [sampleGuest].length + 1 ∧
    (getGuestStats (addGuest [sampleGuest] "Bob" 7).guests).pending
      = (getGuestStats [sampleGuest]).pending + 1 :=
  addGuest_valid_appends_pending [sampleGuest] "Bob" 7 (by decide) (by decide)
    (by decide)

/-! ### Claim C2: invalid names are rejected with a validation error -/

/-- Claim C2: for every roster and every input that is empty after trimming
or longer than 50 characters after trimming, `addGuest` leaves the roster
exactly as it was, adds no record, and surfaces an error notification (the
code's rendering of `ValidationError`). -/
theorem addGuest_invalid_name_rejected (guests : List Guest) (rawInput : String)
    (now : Nat)
    (h : jsTrim rawInput = "" ∨ jsLength (jsTrim rawInput) > 50) :
    (addGuest guests rawInput now).guests = guests ∧
    (addGuest guests rawInput now).added = none ∧
    ((addGuest guests rawInput now).notice = .error "Please enter a name" ∨
     (addGuest guests rawInput now).notice
       = .error "Name is too long (max 50 characters)") := by
  rcases h with h | h
  · refine ⟨?_, ?_, Or.inl ?_⟩ <;> simp [addGuest, h]
  · have hne : ¬ jsTrim rawInput = "" := by
      intro he
      rw [he] at h
      simp [jsLength] at h
    refine ⟨?_, ?_, Or.inr ?_⟩ <;> simp [addGuest, if_neg hne, if_pos h]

/-- Witness for C2: a name of 51 characters is rejected and the roster is
untouched. -/
theorem addGuest_invalid_name_rejected_witness :
    (addGuest [sampleGuest] "aaaaaaaaaaaaaaaaaaaaaaaaaaaaaaaaaaaaaaaaaaaaaaaaaaa" 7).guests
      = [sampleGuest] ∧
    (addGuest [sampleGuest] "aaaaaaaaaaaaaaaaaaaaaaaaaaaaaaaaaaaaaaaaaaaaaaaaaaa" 7).added
      = none ∧
    ((addGuest [sampleGuest] "aaaaaaaaaaaaaaaaaaaaaaaaaaaaaaaaaaaaaaaaaaaaaaaaaaa" 7).notice
        = .error "Please enter a name" ∨
     (addGuest [sampleGuest] "aaaaaaaaaaaaaaaaaaaaaaaaaaaaaaaaaaaaaaaaaaaaaaaaaaa" 7).notice
        = .error "Name is too long (max 50 characters)") :=
  addGuest_invalid_name_rejected [sampleGuest]
    "aaaaaaaaaaaaaaaaaaaaaaaaaaaaaaaaaaaaaaaaaaaaaaaaaaa" 7 (by decide)

/-! ### Claim C3: duplicate names are rejected in the local variant -/

/-- Claim C3: in the local-storage variant, for every roster and every
trimmed valid-length name that matches an existing guest's name under
case-insensitive comparison, `addGuest` leaves the roster unchanged, adds no
record, and surfaces the duplicate warning (the code's rendering of
`DuplicateError`). -/
theorem addGuest_duplicate_rejected (guests : List Guest) (rawInput : String)
    (now : Nat)
    (hne : jsTrim rawInput ≠ "")
    (hlen : jsLength (jsTrim rawInput) ≤ 50)
    (hdup : ∃ g ∈ guests, jsToLower g.name = jsToLower (jsTrim rawInput)) :
    (addGuest guests rawInput now).guests = guests ∧
    (addGuest guests rawInput now).added = none ∧
    (addGuest guests rawInput now).notice
      = .warning "This guest has already been added" := by
  have hgt : ¬ jsLength (jsTrim rawInput) > 50 := by omega
  have hany : (guests.any fun g => jsToLower g.name == jsToLower (jsTrim rawInput))
      = true := by
    rw [List.any_eq_true]
    rcases hdup with ⟨g, hg, hname⟩
    exact ⟨g, hg, by simpa using hname⟩
  refine ⟨?_, ?_, ?_⟩ <;> simp [addGuest, if_neg hne, if_neg hgt, hany]

/-- Witness for C3: adding `JOSÉ` when `josé` is present is rejected — the
duplicate comparison matches across the non-ASCII case mapping É/é, as the
program's `toLowerCase` does. -/
theorem addGuest_duplicate_rejected_witness :
    (addGuest [⟨3, "josé", "pending"⟩] "JOSÉ" 9).guests
      = [⟨3, "josé", "pending"⟩] ∧
    (addGuest [⟨3, "josé", "pending"⟩] "JOSÉ" 9).added = none ∧
    (addGuest [⟨3, "josé", "pending"⟩] "JOSÉ" 9).notice
      = .warning "This guest has already been added" :=
  addGuest_duplicate_rejected [⟨3, "josé", "pending"⟩] "JOSÉ" 9 (by decide)
    (by decide) ⟨⟨3, "josé", "pending"⟩, by decide, by decide⟩

/-! ### Claim C4: update and remove on an unknown id

The spec says both fail with `NotFoundError`. The local-storage code guards
with `if (guest)` and simply does nothing on the else path: no notification
of any kind is shown and nothing signals the failure, so no error result is
produced. The counterexample below exhibits this; the amended claim states
the silent no-op. -/

/-- Counterexample for C4: id 42 is absent from the roster, yet
`updateGuestStatus` and `removeGuest` produce no notification at all (and in
particular no `NotFoundError`); they silently leave the roster unchanged,
contradicting the claim that an error result is produced. -/
theorem unknown_id_produces_no_error :
    ([sampleGuest].all fun g => g.id != 42) = true ∧
    updateGuestStatus [sampleGuest] 42 "confirmed" = ([sampleGuest], none) ∧
    removeGuest [sampleGuest] 42 = ⟨[sampleGuest], none, none⟩ ∧
    ¬ ((updateGuestStatus [sampleGuest] 42 "confirmed").2.isSome = true ∨
       (removeGuest [sampleGuest] 42).notice.isSome = true) := by
  decide

/-- Amended claim C4: for every roster and every id absent from it,
`updateGuestStatus` and `removeGuest` are silent no-ops: the roster is left
exactly as it was, nothing is removed, and no notification (hence no
`NotFoundError`) is surfaced. -/
theorem unknown_id_silent_noop (guests : List Guest) (id : Nat)
    (newStatus : String)
    (h : ∀ g ∈ guests, g.id ≠ id) :
    updateGuestStatus guests id newStatus = (guests, none) ∧
    removeGuest guests id = ⟨guests, none, none⟩ := by
  have hf : guests.find? (fun g => g.id == id) = none := by
    rw [List.find?_eq_none]
    intro g hg
    simpa using h g hg
  constructor <;> simp [updateGuestStatus, removeGuest, hf]

/-- Witness for the amended C4 on a concrete roster. -/
theorem unknown_id_silent_noop_witness :
    updateGuestStatus [sampleGuest] 42 "confirmed" = ([sampleGuest], none) ∧
    removeGuest [sampleGuest] 42 = ⟨[sampleGuest], none, none⟩ :=
  unknown_id_silent_noop [sampleGuest] 42 "confirmed" (by decide)

/-! ### Claim C5: update on a known id only touches that record's status -/

/-- Updating the first guest whose id matches is pointwise `List.set` at the
first matching index. -/
theorem setStatusFirst_eq_set (guests : List Guest) (id : Nat) (s : String)
    (h : ∃ g ∈ guests, g.id = id) :
    ∃ i, ∃ hi : i < guests.length,
      (guests.get ⟨i, hi⟩).id = id ∧
      setStatusFirst guests id s
        = guests.set i { guests.get ⟨i, hi⟩ with status := s } := by
  induction guests with
  | nil => simp at h
  | cons g gs ih =>
    by_cases hg : g.id = id
    · exact ⟨0, by simp, by simpa using hg, by simp [setStatusFirst, hg]⟩
    · have h' : ∃ x ∈ gs, x.id = id := by
        rcases h with ⟨x, hx, hxid⟩
        rcases List.mem_cons.mp hx with rfl | hx'
        · exact absurd hxid hg
        · exact ⟨x, hx', hxid⟩
      rcases ih h' with ⟨i, hi, hid, heq⟩
      refine ⟨i + 1, by simpa using Nat.succ_lt_succ hi, by simpa using hid, ?_⟩
      simp [setStatusFirst, hg, heq]

/-- Claim C5: for every roster and every id present in it,
`updateGuestStatus` rewrites exactly one record — at an index holding that
id — to the same id and name with the new status; every other position is
unchanged, the length and order are unchanged, and no notification is
shown. -/
theorem updateGuestStatus_known_id_frame (guests : List Guest) (id : Nat)
    (newStatus : String)
    (h : ∃ g ∈ guests, g.id = id) :
    ∃ i, ∃ hi : i < guests.length,
      (guests.get ⟨i, hi⟩).id = id ∧
      (updateGuestStatus guests id newStatus).1
        = guests.set i { guests.get ⟨i, hi⟩ with status := newStatus } ∧
      (updateGuestStatus guests id newStatus).1.length = guests.length ∧
      (updateGuestStatus guests id newStatus).1[i]?
        = some ⟨(guests.get ⟨i, hi⟩).id, (guests.get ⟨i, hi⟩).name, newStatus⟩ ∧
      (∀ j, j ≠ i → (updateGuestStatus guests id newStatus).1[j]? = guests[j]?) ∧
      (updateGuestStatus guests id newStatus).2 = none := by
  have hsome : (guests.find? fun g => g.id == id).isSome = true := by
    rw [List.find?_isSome]
    rcases h with ⟨g, hg, hid⟩
    exact ⟨g, hg, by simpa using hid⟩
  rcases Option.isSome_iff_exists.mp hsome with ⟨g₀, hf⟩
  have hupd : updateGuestStatus guests id newStatus
      = (setStatusFirst guests id newStatus, none) := by
    simp [updateGuestStatus, hf]
  rcases setStatusFirst_eq_set guests id newStatus h with ⟨i, hi, hid, heq⟩
  refine ⟨i, hi, hid, ?_, ?_, ?_, ?_, ?_⟩
  · rw [hupd]; exact heq
  · rw [hupd]; simpa using congrArg List.length heq
  · rw [hupd]
    simp only [heq]
    rw [List.getElem?_set_self']
    simp [List.getElem?_eq_getElem hi]
  · intro j hj
    rw [hupd]
    simp only [heq]
    exact List.getElem?_set_ne (fun hij => hj hij.symm)
  · rw [hupd]

/-- Witness for C5 on a concrete two-guest roster. -/
theorem updateGuestStatus_known_id_frame_witness :
    ∃ i, ∃ hi : i < [sampleGuest, ⟨7, "Bob", "pending"⟩].length,
      (([sampleGuest, ⟨7, "Bob", "pending"⟩] : List Guest).get ⟨i, hi⟩).id = 7 ∧
      (updateGuestStatus [sampleGuest, ⟨7, "Bob", "pending"⟩] 7 "confirmed").1
        = [sampleGuest, ⟨7, "Bob", "pending"⟩].set i
            { ([sampleGuest, ⟨7, "Bob", "pending"⟩] : List Guest).get ⟨i, hi⟩ with
                status := "confirmed" } ∧
      (updateGuestStatus [sampleGuest, ⟨7, "Bob", "pending"⟩] 7 "confirmed").1.length
        = [sampleGuest, ⟨7, "Bob", "pending"⟩].length ∧
      (updateGuestStatus [sampleGuest, ⟨7, "Bob", "pending"⟩] 7 "confirmed").1[i]?
        = some ⟨(([sampleGuest, ⟨7, "Bob", "pending"⟩] : List Guest).get ⟨i, hi⟩).id,
            (([sampleGuest, ⟨7, "Bob", "pending"⟩] : List Guest).get ⟨i, hi⟩).name,
            "confirmed"⟩ ∧
      (∀ j, j ≠ i →
        (updateGuestStatus [sampleGuest, ⟨7, "Bob", "pending"⟩] 7 "confirmed").1[j]?
          = ([sampleGuest, ⟨7, "Bob", "pending"⟩] : List Guest)[j]?) ∧
      (updateGuestStatus [sampleGuest, ⟨7, "Bob", "pending"⟩] 7 "confirmed").2 = none :=
  updateGuestStatus_known_id_frame [sampleGuest, ⟨7, "Bob", "pending"⟩] 7 "confirmed"
    ⟨⟨7, "Bob", "pending"⟩, by decide, by decide⟩

/-! ### Claim C6: remove on a known id -/

/-- When guest ids are pairwise distinct and some guest holds the id,
filtering that id out shortens the list by exactly one. -/
theorem length_filter_ne_id (guests : List Guest) (id : Nat)
    (hnd : (guests.map Guest.id).Nodup)
    (h : ∃ g ∈ guests, g.id = id) :
    (guests.filter fun x => !(x.id == id)).length + 1 = guests.length := by
  induction guests with
  | nil => simp at h
  | cons g gs ih =>
    rw [List.map_cons, List.nodup_cons] at hnd
    by_cases hg : g.id = id
    · have hrest : (gs.filter fun x => !(x.id == id)) = gs := by
        rw [List.filter_eq_self]
        intro x hx
        have : x.id ≠ id := by
          intro he
          exact hnd.1 (by rw [hg, ← he]; exact List.mem_map_of_mem Guest.id hx)
        simpa using this
      simp [List.filter_cons, hg, hrest]
    · have h' : ∃ x ∈ gs, x.id = id := by
        rcases h with ⟨x, hx, hxid⟩
        rcases List.mem_cons.mp hx with rfl | hx'
        · exact absurd hxid hg
        · exact ⟨x, hx', hxid⟩
      have := ih hnd.2 h'
      simp only [List.filter_cons, List.length_cons]
      rw [if_pos (by simpa using hg)]
      simp only [List.length_cons]
      omega

/-- Claim C6: for every roster with pairwise-distinct ids and every id
present in it, `removeGuest` returns the record holding that id, shortens
the list by exactly one, leaves no guest with that id behind, and keeps the
surviving records in their original relative order (the new list is a
sublist of the old one). -/
theorem removeGuest_known_id (guests : List Guest) (id : Nat)
    (hnd : (guests.map Guest.id).Nodup)
    (h : ∃ g ∈ guests, g.id = id) :
    ∃ g, g ∈ guests ∧ g.id = id ∧
      (removeGuest guests id).removed = some g ∧
      (removeGuest guests id).guests.length + 1 = guests.length ∧
      (∀ x ∈ (removeGuest guests id).guests, x.id ≠ id) ∧
      (removeGuest guests id).guests.Sublist guests := by
  have hsome : (guests.find? fun g => g.id == id).isSome = true := by
    rw [List.find?_isSome]
    rcases h with ⟨g, hg, hid⟩
    exact ⟨g, hg, by simpa using hid⟩
  rcases Option.isSome_iff_exists.mp hsome with ⟨g₀, hf⟩
  have hmem : g₀ ∈ guests := List.mem_of_find?_eq_some hf
  have hid₀ : g₀.id = id := by simpa using List.find?_some hf
  have hrem : removeGuest guests id =
      { guests := guests.filter fun x => !(x.id == id),
        removed := some g₀,
        notice := some (.success ("✓ " ++ g₀.name ++ " removed")) } := by
    simp [removeGuest, hf]
  refine ⟨g₀, hmem, hid₀, ?_, ?_, ?_, ?_⟩
  · rw [hrem]
  · rw [hrem]
    exact length_filter_ne_id guests id hnd h
  · rw [hrem]
    intro x hx
    have := (List.mem_filter.mp hx).2
    simpa using this
  · rw [hrem]
    exact List.filter_sublist guests

/-- Witness for C6 on a concrete two-guest roster. -/
theorem removeGuest_known_id_witness :
    ∃ g, g ∈ [sampleGuest, ⟨7, "Bob", "pending"⟩] ∧ g.id = 7 ∧
      (removeGuest [sampleGuest, ⟨7, "Bob", "pending"⟩] 7).removed = some g ∧
      (removeGuest [sampleGuest, ⟨7, "Bob", "pending"⟩] 7).guests.length + 1
        = [sampleGuest, ⟨7, "Bob", "pending"⟩].length ∧
      (∀ x ∈ (removeGuest [sampleGuest, ⟨7, "Bob", "pending"⟩] 7).guests, x.id ≠ 7) ∧
      (removeGuest [sampleGuest, ⟨7, "Bob", "pending"⟩] 7).guests.Sublist
        [sampleGuest, ⟨7, "Bob", "pending"⟩] :=
  removeGuest_known_id [sampleGuest, ⟨7, "Bob", "pending"⟩] 7 (by decide)
    ⟨⟨7, "Bob", "pending"⟩, by decide, by decide⟩

/-! ### Helper lemmas for reachability invariants -/

/-- The guest list after `addGuest` is either unchanged (a validation or
duplicate rejection) or extended by a single pending record whose name is
the escaped trimmed input, with the trimmed input known non-empty and at
most 50 characters. -/
theorem addGuest_guests_cases (guests : List Guest) (rawInput : String)
    (now : Nat) :
    (addGuest guests rawInput now).guests = guests ∨
    (jsTrim rawInput ≠ "" ∧ jsLength (jsTrim rawInput) ≤ 50 ∧
      (addGuest guests rawInput now).guests
        = guests ++ [⟨now, escapeHtml (jsTrim rawInput), "pending"⟩]) := by
  simp only [addGuest]
  split_ifs with h1 h2 h3
  · exact Or.inl rfl
  · exact Or.inl rfl
  · exact Or.inl rfl
  · exact Or.inr ⟨h1, by omega, rfl⟩

/-- Every guest of `setStatusFirst guests id s` is either an original guest
or an original guest with its status overwritten by `s`. -/
theorem mem_setStatusFirst (guests : List Guest) (id : Nat) (s : String)
    (g : Guest) (hg : g ∈ setStatusFirst guests id s) :
    g ∈ guests ∨ ∃ g₀ ∈ guests, g = { g₀ with status := s } := by
  induction guests with
  | nil => simp [setStatusFirst] at hg
  | cons a as ih =>
    by_cases ha : a.id = id
    · rw [setStatusFirst, if_pos ha] at hg
      rcases List.mem_cons.mp hg with rfl | h'
      · exact Or.inr ⟨a, List.mem_cons_self a as, rfl⟩
      · exact Or.inl (List.mem_cons_of_mem a h')
    · rw [setStatusFirst, if_neg ha] at hg
      rcases List.mem_cons.mp hg with rfl | h'
      · exact Or.inl (List.mem_cons_self g as)
      · rcases ih h' with h | ⟨g₀, hg₀, heq⟩
        · exact Or.inl (List.mem_cons_of_mem a h)
        · exact Or.inr ⟨g₀, List.mem_cons_of_mem a hg₀, heq⟩

/-- Every guest present after `updateGuestStatus` is an original guest or an
original guest with status overwritten by the new status. -/
theorem mem_updateGuestStatus (guests : List Guest) (id : Nat) (s : String)
    (g : Guest) (hg : g ∈ (updateGuestStatus guests id s).1) :
    g ∈ guests ∨ ∃ g₀ ∈ guests, g = { g₀ with status := s } := by
  unfold updateGuestStatus at hg
  rcases hf : guests.find? fun x => x.id == id with _ | g₀ <;> rw [hf] at hg
  · exact Or.inl hg
  · exact mem_setStatusFirst guests id s g hg

/-- Every guest present after `removeGuest` was already in the roster. -/
theorem mem_removeGuest (guests : List Guest) (id : Nat)
    (g : Guest) (hg : g ∈ (removeGuest guests id).guests) :
    g ∈ guests := by
  unfold removeGuest at hg
  rcases hf : guests.find? fun x => x.id == id with _ | g₀ <;> rw [hf] at hg
  · exact hg
  · exact (List.mem_filter.mp hg).1

/-! ### Claim C7: statuses stay in the pending/confirmed/declined enumeration

The claim also asserts that `updateStatus` never stores a status outside the
enumeration. The code's `updateGuestStatus` stores its `newStatus` argument
verbatim without any check, so a single update operation carrying any other
string puts that string in the roster; the counterexample below shows it.
The invariant does hold for every operation sequence whose update operations
carry statuses from the enumeration — which is all the UI can issue, since
the status dropdown offers exactly the three values. -/

/-- Counterexample for C7: from the initial roster, the single operation
`updateGuestStatus(1, 'maybe')` — accepted verbatim by the code, which
never validates `newStatus` — yields a reachable roster whose only guest
has status `maybe`, outside the pending/confirmed/declined enumeration. -/
theorem update_stores_status_outside_enumeration :
    (runOps initialGuests [Op.update 1 "maybe"]).map Guest.status = ["maybe"] ∧
    isValidStatus "maybe" = false := by
  decide

/-- Amended claim C7: for every initial roster whose statuses lie in the
pending/confirmed/declined enumeration and every sequence of add, update and
remove operations whose update operations carry statuses from that
enumeration (as every UI-issued operation does), all statuses of the
resulting roster lie in the enumeration; add itself always writes
`pending`. -/
theorem runOps_status_invariant (init : List Guest) (ops : List Op)
    (hops : ∀ op ∈ ops, opWritesValidStatus op = true)
    (hinit : ∀ g ∈ init, isValidStatus g.status = true) :
    ∀ g ∈ runOps init ops, isValidStatus g.status = true := by
  induction ops generalizing init with
  | nil => simpa [runOps] using hinit
  | cons op ops ih =>
    have hops' : ∀ o ∈ ops, opWritesValidStatus o = true :=
      fun o ho => hops o (List.mem_cons_of_mem op ho)
    have hstep : ∀ g ∈ applyOp init op, isValidStatus g.status = true := by
      intro g hg
      cases op with
      | add rawInput now =>
          rcases addGuest_guests_cases init rawInput now with hc | ⟨_, _, hc⟩
          · rw [applyOp, hc] at hg
            exact hinit g hg
          · rw [applyOp, hc] at hg
            rcases List.mem_append.mp hg with h' | h'
            · exact hinit g h'
            · rcases List.mem_singleton.mp h' with rfl
              rfl
      | update id newStatus =>
          have hvalid : isValidStatus newStatus = true := by
            simpa [opWritesValidStatus] using hops _ (List.mem_cons_self _ _)
          rcases mem_updateGuestStatus init id newStatus g hg with h' | ⟨g₀, _, rfl⟩
          · exact hinit g h'
          · exact hvalid
      | remove id =>
          exact hinit g (mem_removeGuest init id g hg)
    have : runOps init (op :: ops) = runOps (applyOp init op) ops := by
      simp [runOps, List.foldl_cons]
    rw [this]
    exact ih (applyOp init op) hops' hstep

/-- Witness for the amended C7: a concrete operation sequence, evaluated on
the guest the run produces. -/
theorem runOps_status_invariant_witness :
    isValidStatus (Guest.mk 1 "Sample Guest" "confirmed").status = true :=
  runOps_status_invariant initialGuests
    [Op.add "Bob" 7, Op.update 1 "confirmed", Op.remove 7]
    (by decide) (by decide) ⟨1, "Sample Guest", "confirmed"⟩ (by decide)

/-! ### Claim C8: stored guest names

The validation bounds the trimmed raw input to 1–50 characters, but the
stored name is `escapeHtml` of that input, and each of the five escaped
characters expands to an entity of 4–6 characters, so the stored name can be
far longer than 50: eleven ampersands pass validation (length 11) yet are
stored as a 55-character name. The sharp bound on a stored name is
6 × 50 = 300 UTF-16 units. -/

theorem charUtf16_pos (c : Char) : 1 ≤ charUtf16 c := by
  unfold charUtf16
  split <;> omega

theorem charUtf16_le_two (c : Char) : charUtf16 c ≤ 2 := by
  unfold charUtf16
  split <;> omega

/-- Each character's replacement contributes at most 6 UTF-16 units
(`&quot;` and `&#039;` are 6 characters long). -/
theorem escChar_utf16_sum_le (c : Char) : ((escChar c).map charUtf16).sum ≤ 6 := by
  have h2 := charUtf16_le_two c
  unfold escChar
  split_ifs <;> first
    | decide
    | (simp only [List.map_cons, List.map_nil, List.sum_cons, List.sum_nil]; omega)

theorem flatten_escChar_utf16_le (l : List Char) :
    ((l.map escChar).flatten.map charUtf16).sum ≤ 6 * (l.map charUtf16).sum := by
  induction l with
  | nil => simp
  | cons c l ih =>
    have h1 := escChar_utf16_sum_le c
    have h2 := charUtf16_pos c
    simp only [List.map_cons, List.flatten_cons, List.map_append, List.sum_append,
      List.sum_cons]
    omega

/-- Escaping expands the UTF-16 length by a factor of at most 6. -/
theorem jsLength_escapeHtml_le (t : String) :
    jsLength (escapeHtml t) ≤ 6 * jsLength t := by
  simpa [jsLength, escapeHtml] using flatten_escChar_utf16_le t.data

/-- A string trims to empty exactly when all of its characters are
whitespace. -/
theorem jsTrim_eq_empty_iff (s : String) :
    jsTrim s = "" ↔ ∀ c ∈ s.data, isJsWhitespace c = true := by
  constructor
  · intro h c hc
    have hdata : ((s.data.dropWhile isJsWhitespace).reverse.dropWhile
        isJsWhitespace).reverse = [] := congrArg String.data h
    rw [List.reverse_eq_nil_iff, List.dropWhile_eq_nil_iff] at hdata
    have hall : ∀ x ∈ s.data.dropWhile isJsWhitespace, isJsWhitespace x = true :=
      fun x hx => hdata x (List.mem_reverse.mpr hx)
    have hc' : c ∈ s.data.takeWhile isJsWhitespace ++ s.data.dropWhile isJsWhitespace := by
      rw [List.takeWhile_append_dropWhile]
      exact hc
    rcases List.mem_append.mp hc' with h' | h'
    · exact List.mem_takeWhile_imp h'
    · exact hall _ h'
  · intro h
    have h1 : s.data.dropWhile isJsWhitespace = [] := List.dropWhile_eq_nil_iff.mpr h
    unfold jsTrim
    rw [h1]
    rfl

/-- A string with a non-empty trim contains a non-whitespace character in
its trimmed form. -/
theorem jsTrim_has_nonws (s : String) (h : jsTrim s ≠ "") :
    ∃ c ∈ (jsTrim s).data, isJsWhitespace c = false := by
  have hne : (s.data.dropWhile isJsWhitespace).reverse.dropWhile isJsWhitespace ≠ [] := by
    intro hnil
    apply h
    unfold jsTrim
    rw [hnil]
    rfl
  have hpos : 0 < ((s.data.dropWhile isJsWhitespace).reverse.dropWhile
      isJsWhitespace).length := List.length_pos.mpr hne
  have hhead := List.dropWhile_get_zero_not isJsWhitespace
    (s.data.dropWhile isJsWhitespace).reverse hpos
  refine ⟨_, ?_, by simpa using hhead⟩
  show _ ∈ (jsTrim s).data
  exact List.mem_reverse.mpr (List.get_mem _ _ _)

/-- The replacement of a non-whitespace character contains a non-whitespace
character (escaped characters become entities starting with an ampersand,
every other character is kept). -/
theorem escChar_exists_nonws (c : Char) (h : isJsWhitespace c = false) :
    ∃ d ∈ escChar c, isJsWhitespace d = false := by
  unfold escChar
  split_ifs <;> first
    | exact ⟨'&', by decide, by decide⟩
    | exact ⟨c, List.mem_singleton_self c, h⟩

/-- Escaping a string that contains a non-whitespace character yields a
string that is still non-empty after trimming. -/
theorem jsTrim_escapeHtml_ne_empty (x : String)
    (hx : ∃ c ∈ x.data, isJsWhitespace c = false) :
    jsTrim (escapeHtml x) ≠ "" := by
  rcases hx with ⟨c, hc, hcws⟩
  rcases escChar_exists_nonws c hcws with ⟨d, hd, hdws⟩
  intro hempty
  have hmem : d ∈ (escapeHtml x).data :=
    List.mem_flatten.mpr ⟨escChar c, List.mem_map_of_mem escChar hc, hd⟩
  have := (jsTrim_eq_empty_iff (escapeHtml x)).mp hempty d hmem
  rw [this] at hdws
  cases hdws

/-- Counterexample for C8: adding eleven ampersands (trimmed length 11,
which passes validation) stores the escaped name `&amp;` × 11 of length 55,
so the claim's 50-character bound on stored names fails on a reachable
roster. -/
theorem stored_name_exceeds_50_after_trim :
    (runOps initialGuests [Op.add "&&&&&&&&&&&" 100]).map
        (fun g => jsLength (jsTrim g.name)) = [12, 55] ∧
    ¬ ((runOps initialGuests [Op.add "&&&&&&&&&&&" 100]).all
        (fun g => decide (jsTrim g.name ≠ "" ∧ jsLength (jsTrim g.name) ≤ 50))
      = true) := by
  decide

/-- Amended claim C8: for every initial roster whose names are non-empty
after trimming and at most 300 UTF-16 units, and every sequence of add,
update and remove operations, every stored name stays non-empty after
trimming and at most 300 units: the raw trimmed input of a successful add is
1–50 characters, and HTML escaping expands it by a factor of at most 6
(so not necessarily within 50). -/
theorem runOps_name_invariant (init : List Guest) (ops : List Op)
    (hinit : ∀ g ∈ init, goodName g.name) :
    ∀ g ∈ runOps init ops, goodName g.name := by
  induction ops generalizing init with
  | nil => simpa [runOps] using hinit
  | cons op ops ih =>
    have hstep : ∀ g ∈ applyOp init op, goodName g.name := by
      intro g hg
      cases op with
      | add rawInput now =>
          rcases addGuest_guests_cases init rawInput now with hc | ⟨hne, hlen, hc⟩
          · rw [applyOp, hc] at hg
            exact hinit g hg
          · rw [applyOp, hc] at hg
            rcases List.mem_append.mp hg with h' | h'
            · exact hinit g h'
            · rcases List.mem_singleton.mp h' with rfl
              refine ⟨jsTrim_escapeHtml_ne_empty _ (jsTrim_has_nonws rawInput hne), ?_⟩
              show jsLength (escapeHtml (jsTrim rawInput)) ≤ 300
              have h6 := jsLength_escapeHtml_le (jsTrim rawInput)
              omega
      | update id s =>
          rcases mem_updateGuestStatus init id s g hg with h' | ⟨g₀, hg₀, rfl⟩
          · exact hinit g h'
          · exact hinit g₀ hg₀
      | remove id =>
          exact hinit g (mem_removeGuest init id g hg)
    have hrw : runOps init (op :: ops) = runOps (applyOp init op) ops := by
      simp [runOps, List.foldl_cons]
    rw [hrw]
    exact ih (applyOp init op) hstep

/-- Witness for the amended C8: a concrete add, evaluated on the guest it
stores. -/
theorem runOps_name_invariant_witness :
    goodName (Guest.mk 7 "Bob" "pending").name :=
  runOps_name_invariant initialGuests [Op.add "Bob" 7] (by decide)
    ⟨7, "Bob", "pending"⟩ (by decide)

/-! ### Claim C9: guest ids are pairwise distinct

`addGuest` uses `Date.now()` as the id with no check against the ids already
in the roster, so two adds during the same millisecond assign the same id.
The counterexample below runs two adds with the same timestamp; the amended
claim makes freshness of the timestamp a hypothesis. -/

/-- Counterexample for C9: two adds carrying the same `Date.now()` value
(two calls within one millisecond) yield the duplicate ids `[1, 5, 5]`:
add does not always assign an id different from every existing id. -/
theorem same_millisecond_adds_duplicate_ids :
    (runOps initialGuests [Op.add "Bob" 5, Op.add "Alice" 5]).map Guest.id
      = [1, 5, 5] ∧
    ¬ ((runOps initialGuests [Op.add "Bob" 5, Op.add "Alice" 5]).map
        Guest.id).Nodup := by
  decide

/-- Amended claim C9: `addGuest` assigns `Date.now()` as the id; whenever
that timestamp differs from every id already in the roster (in particular
whenever adds happen in distinct milliseconds later than all existing ids),
pairwise distinctness of ids is preserved. -/
theorem addGuest_fresh_timestamp_preserves_nodup (guests : List Guest)
    (rawInput : String) (now : Nat)
    (hnow : now ∉ guests.map Guest.id)
    (hnd : (guests.map Guest.id).Nodup) :
    ((addGuest guests rawInput now).guests.map Guest.id).Nodup := by
  rcases addGuest_guests_cases guests rawInput now with hc | ⟨_, _, hc⟩
  · rw [hc]
    exact hnd
  · rw [hc, List.map_append]
    rw [List.nodup_append]
    refine ⟨hnd, by simp, ?_⟩
    intro a ha hb
    simp only [List.map_cons, List.map_nil, List.mem_singleton] at hb
    subst hb
    exact hnow ha

/-- Witness for the amended C9 on a concrete roster and fresh timestamp. -/
theorem addGuest_fresh_timestamp_preserves_nodup_witness :
    ((addGuest [sampleGuest] "Bob" 7).guests.map Guest.id).Nodup :=
  addGuest_fresh_timestamp_preserves_nodup [sampleGuest] "Bob" 7 (by decide)
    (by decide)

/-! ### Claim C10: remote persistence failures leave the in-memory state -/

/-- Claim C10: in the remote variant, whenever a persistence call fails —
the mutating fetch throws, or the reload does not report success (its fetch
threw or the body's `success` flag is false) — the in-memory guest list is
left exactly as it was, for load, add, update-status and remove alike. -/
theorem remote_failure_leaves_state (st : List Guest) (rawInput : String)
    (post put del : HttpResult) (reload : Option LoadResponse) :
    (reloadFails reload = true → loadGuestsRemote st reload = st) ∧
    (post = .thrown ∨ reloadFails reload = true →
      addGuestRemote st rawInput post reload = st) ∧
    (put = .thrown ∨ reloadFails reload = true →
      updateGuestStatusRemote st put reload = st) ∧
    (del = .thrown ∨ reloadFails reload = true →
      removeGuestRemote st del reload = st) := by
  have hload : reloadFails reload = true → loadGuestsRemote st reload = st := by
    intro h
    cases reload with
    | none => rfl
    | some r =>
        have : r.success = false := by simpa [reloadFails] using h
        simp [loadGuestsRemote, this]
  refine ⟨hload, ?_, ?_, ?_⟩
  · rintro (rfl | h)
    · simp only [addGuestRemote]
      split_ifs <;> rfl
    · simp only [addGuestRemote]
      split_ifs <;> cases post <;> first | rfl | exact hload h
  · rintro (rfl | h)
    · rfl
    · cases put <;> first | rfl | exact hload h
  · rintro (rfl | h)
    · rfl
    · cases del <;> first | rfl | exact hload h

/-- Witness for C10: thrown fetches and a thrown reload leave a concrete
state untouched in all four operations. -/
theorem remote_failure_leaves_state_witness :
    loadGuestsRemote [sampleGuest] none = [sampleGuest] ∧
    addGuestRemote [sampleGuest] "Bob" HttpResult.thrown none = [sampleGuest] ∧
    updateGuestStatusRemote [sampleGuest] HttpResult.thrown none = [sampleGuest] ∧
    removeGuestRemote [sampleGuest] HttpResult.thrown none = [sampleGuest] :=
  ⟨(remote_failure_leaves_state [sampleGuest] "Bob" .thrown .thrown .thrown none).1
      (by decide),
   (remote_failure_leaves_state [sampleGuest] "Bob" .thrown .thrown .thrown none).2.1
      (Or.inl rfl),
   (remote_failure_leaves_state [sampleGuest] "Bob" .thrown .thrown .thrown none).2.2.1
      (Or.inl rfl),
   (remote_failure_leaves_state [sampleGuest] "Bob" .thrown .thrown .thrown none).2.2.2
      (Or.inl rfl)⟩

end Birthday
